import Mathlib

/-!
Verification of the trading-account state machine of `stock-market-rl`
(`src/environment.py`) against its natural-language specification.

Prices, balances and volumes are Python floats in the source; the exact
accounting laws under scrutiny are algebraic identities, so they are
modelled over `ℚ`.  Division by zero in the source (Python) is an error;
in `ℚ` it yields 0, and where a claim depends on a divisor being
non-zero this is made explicit (`sell_checked`).
-/

namespace StockMarketRL

/-- The `PositionType` enum from `environment.py` (lines 5-8): `LONG = 1`,
`HOLD = 0`, `SHORT = -1`.  `HOLD` doubles as the "no open position"
side (the spec calls it `NONE`). -/
inductive PositionType where
  | LONG
  | HOLD
  | SHORT
deriving DecidableEq, Repr

/-- The `self.position` dictionary:
`{'position_type': ..., 'owned_volume': ..., 'purchase_price': ...}`. -/
structure Position where
  position_type : PositionType
  owned_volume : ℚ
  purchase_price : ℚ
deriving DecidableEq, Repr

/-- The mutable account state of `TradingEnvironment`: `balance`,
`position`, `portfolio_value` and `current_step`. -/
structure Env where
  balance : ℚ
  position : Position
  portfolio_value : ℚ
  current_step : ℕ
deriving DecidableEq, Repr

/-- The `action_mapping` dictionary (environment.py lines 47-51): raw agent actions
`1 ↦ LONG`, `0 ↦ HOLD`, `-1 ↦ SHORT`; any other raw action has no
translation (`dict.get` returns `None`). -/
def action_mapping : ℤ → Option PositionType
  | 1 => some PositionType.LONG
  | 0 => some PositionType.HOLD
  | -1 => some PositionType.SHORT
  | _ => none

/-- The `reset` method (environment.py lines 64-75): step 0, balance back to the
initial balance, portfolio value 0, position `{HOLD, 0, 0}`. -/
def reset (initial_balance : ℚ) : Env :=
  { balance := initial_balance
    position := ⟨PositionType.HOLD, 0, 0⟩
    portfolio_value := 0
    current_step := 0 }

/-- The `update_portfolio_value` method (environment.py lines 251-273): `LONG ↦
price * volume`, `SHORT ↦ 2 * purchase_price * volume - price * volume`,
no position `↦ 0`.  Pure. -/
def update_portfolio_value (pos : Position) (current_price : ℚ) : ℚ :=
  match pos.position_type with
  | PositionType.LONG => current_price * pos.owned_volume
  | PositionType.SHORT =>
      2 * pos.purchase_price * pos.owned_volume - current_price * pos.owned_volume
  | PositionType.HOLD => 0

/-- The `pay_transaction_fee` method (environment.py lines 241-249): unconditionally
subtracts the flat fee from the balance. -/
def pay_transaction_fee (fee : ℚ) (e : Env) : Env :=
  { e with balance := e.balance - fee }

/-- The `open_new_position` method (environment.py lines 125-149): `balance -= volume *
price`, position replaced by `{action, volume, price}`, then the fee is
paid.  The source has no affordability check (`TODO` at line 140). -/
def open_new_position (fee : ℚ) (action : PositionType) (volume current_price : ℚ)
    (e : Env) : Env :=
  let cost := volume * current_price
  pay_transaction_fee fee
    { e with balance := e.balance - cost
             position := ⟨action, volume, current_price⟩ }

/-- The `buy_more` method (environment.py lines 151-179): `balance -= volume * price`;
new volume is the sum, new purchase price is `np.average([purchase_price,
price], weights=[owned_volume, volume])`, i.e. the volume-weighted
average; the side is kept; then the fee is paid. -/
def buy_more (fee : ℚ) (_action : PositionType) (volume current_price : ℚ)
    (e : Env) : Env :=
  let cost := volume * current_price
  let owned := e.position.owned_volume
  let pp := e.position.purchase_price
  let new_volume := owned + volume
  let new_purchase_price := (pp * owned + current_price * volume) / (owned + volume)
  pay_transaction_fee fee
    { e with balance := e.balance - cost
             position := ⟨e.position.position_type, new_volume, new_purchase_price⟩ }

/-- The `sell` method (environment.py lines 181-235).  Partial close (`owned_volume >
volume`): `profit_per_share = (portfolio_value - purchase_price *
owned_volume) / owned_volume`, proceeds `(purchase_price +
profit_per_share) * volume` are credited and the volume is reduced, side
and purchase price kept.  Full close (`owned_volume <= volume`): the
stored `portfolio_value` is credited, the position is zeroed, and if
`volume - owned_volume > 0` a reverse position is opened for the excess
via `open_new_position` (which pays its own fee).  In every branch the
trailing `pay_transaction_fee` at line 235 runs. -/
def sell (fee : ℚ) (action : PositionType) (volume current_price : ℚ)
    (e : Env) : Env :=
  let owned := e.position.owned_volume
  let pp := e.position.purchase_price
  if owned > volume then
    let profit_per_share := (e.portfolio_value - pp * owned) / owned
    let outcome := (pp + profit_per_share) * volume
    pay_transaction_fee fee
      { e with balance := e.balance + outcome
               position := ⟨e.position.position_type, owned - volume, pp⟩ }
  else
    let e1 := { e with balance := e.balance + e.portfolio_value
                       position := ⟨PositionType.HOLD, 0, 0⟩ }
    let e2 := if volume - owned > 0 then
                open_new_position fee action (volume - owned) current_price e1
              else e1
    pay_transaction_fee fee e2

/-- Variant of `sell` with the partial-close division made explicit: `none` exactly
when the partial branch would divide by `owned_volume = 0` (a
`ZeroDivisionError`-style error in the source's arithmetic); otherwise
the same result as `sell`. -/
def sell_checked (fee : ℚ) (action : PositionType) (volume current_price : ℚ)
    (e : Env) : Option Env :=
  if e.position.owned_volume > volume ∧ e.position.owned_volume = 0 then none
  else some (sell fee action volume current_price e)

/-- The `hold` method (environment.py lines 237-239): a pure no-op. -/
def hold (_fee : ℚ) (_action : PositionType) (_volume _current_price : ℚ)
    (e : Env) : Env :=
  e

/-! ## Spec-modelled layer

The version of `TradingEnvironment` under `src/` lacks the affordability
clamp (`TODO` comments at environment.py lines 140 and 167), the
zero-volume validation, the stop-loss evaluation, and `step`'s
`(episode_over, balance, effective_action)` return value, all of which
the spec describes (§4.1, §4.3, §4.4) for the repository's authoritative
variant, which is not among the files under `src/`.  Those pieces are
modelled here from the spec's words; everything they call back into
(cost arithmetic, weighted average, the sell branches, the dispatch
table, the double portfolio-value recomputation) follows the source. -/

/-- Modelled from the spec: `cost_volume_calculator(volume, price)`
(spec §4.4), absent from `src/`.  If `balance >= volume*price + fee` the
volume is accepted unchanged with cost `volume*price`; otherwise the
volume is clamped to `floor((balance - fee) / price)` with cost
`clamped * price`.  Returns `(accepted volume, cost)`. -/
def cost_volume_calculator (balance fee volume price : ℚ) : ℚ × ℚ :=
  if balance ≥ volume * price + fee then
    (volume, volume * price)
  else
    let clamped : ℚ := ⌊(balance - fee) / price⌋
    (clamped, clamped * price)

/-- Modelled from the spec: `open_new_position` with the affordability
clamp of §4.4 (missing from `src/`, `TODO` at environment.py line 140).
A clamped volume of 0 is a no-op with no fee charged (§4.1); a clamp can
only reduce the requested volume, never produce a short-fall purchase,
so a non-positive clamped volume is likewise a no-op.  Otherwise as the
source: `balance -= cost`, position replaced, fee paid. -/
def open_new_position_spec (fee : ℚ) (action : PositionType)
    (volume current_price : ℚ) (e : Env) : Env :=
  let r := cost_volume_calculator e.balance fee volume current_price
  if r.1 ≤ 0 then e
  else
    pay_transaction_fee fee
      { e with balance := e.balance - r.2
               position := ⟨action, r.1, current_price⟩ }

/-- Modelled from the spec: `buy_more` with the affordability clamp of
§4.4 (missing from `src/`, `TODO` at environment.py line 167).  A
non-positive clamped volume is a no-op with no fee.  Otherwise as the
source: `balance -= cost`, volume summed, purchase price replaced by the
volume-weighted average, fee paid. -/
def buy_more_spec (fee : ℚ) (_action : PositionType)
    (volume current_price : ℚ) (e : Env) : Env :=
  let r := cost_volume_calculator e.balance fee volume current_price
  if r.1 ≤ 0 then e
  else
    let owned := e.position.owned_volume
    let pp := e.position.purchase_price
    pay_transaction_fee fee
      { e with balance := e.balance - r.2
               position := ⟨e.position.position_type, owned + r.1,
                            (pp * owned + current_price * r.1) / (owned + r.1)⟩ }

/-- Variant of `sell` as dispatched by the spec-modelled `step`: identical to the
source's `sell` except that the reverse position opened on an over-fill
goes through the clamped `open_new_position_spec` (spec §4.1:
"recursively applying its own affordability clamp"). -/
def sell_spec (fee : ℚ) (action : PositionType) (volume current_price : ℚ)
    (e : Env) : Env :=
  let owned := e.position.owned_volume
  let pp := e.position.purchase_price
  if owned > volume then
    let profit_per_share := (e.portfolio_value - pp * owned) / owned
    let outcome := (pp + profit_per_share) * volume
    pay_transaction_fee fee
      { e with balance := e.balance + outcome
               position := ⟨e.position.position_type, owned - volume, pp⟩ }
  else
    let e1 := { e with balance := e.balance + e.portfolio_value
                       position := ⟨PositionType.HOLD, 0, 0⟩ }
    let e2 := if volume - owned > 0 then
                open_new_position_spec fee action (volume - owned) current_price e1
              else e1
    pay_transaction_fee fee e2

/-- The side that closes a position: `LONG ↦ SHORT`, `SHORT ↦ LONG`. -/
def opposite : PositionType → PositionType
  | PositionType.LONG => PositionType.SHORT
  | PositionType.SHORT => PositionType.LONG
  | PositionType.HOLD => PositionType.HOLD

/-- Modelled from the spec: the stop-loss trigger condition (§4.3),
absent from `src/`: `portfolio_value + balance <= 0` or `balance <= 0`. -/
def stop_loss_triggered (e : Env) : Bool :=
  decide (e.portfolio_value + e.balance ≤ 0) || decide (e.balance ≤ 0)

/-- Modelled from the spec: the stop-loss liquidation (§4.3), absent
from `src/`: a full `sell` of the entire current position, reversing the
side, at the current price; a no-op when no position is open. -/
def stop_loss_liquidate (fee current_price : ℚ) (e : Env) : Env :=
  if e.position.position_type = PositionType.HOLD then e
  else sell_spec fee (opposite e.position.position_type)
         e.position.owned_volume current_price e

/-- The transition table of `action_position_mapping` (environment.py
lines 55-60, spec §4.1): `(action, current side)` selects open / buy /
sell / hold, here wired to the spec-clamped operations. -/
def dispatch_spec (fee : ℚ) (action : PositionType) (volume current_price : ℚ)
    (e : Env) : Env :=
  match action, e.position.position_type with
  | PositionType.HOLD, _ => hold fee action volume current_price e
  | PositionType.LONG, PositionType.HOLD =>
      open_new_position_spec fee action volume current_price e
  | PositionType.SHORT, PositionType.HOLD =>
      open_new_position_spec fee action volume current_price e
  | PositionType.LONG, PositionType.LONG =>
      buy_more_spec fee action volume current_price e
  | PositionType.SHORT, PositionType.SHORT =>
      buy_more_spec fee action volume current_price e
  | PositionType.LONG, PositionType.SHORT =>
      sell_spec fee action volume current_price e
  | PositionType.SHORT, PositionType.LONG =>
      sell_spec fee action volume current_price e

/-- The `effective_action` reported by the spec-modelled `step` on its
normal path (spec §4.1): the translated action, coerced to `HOLD` when an
open/buy is clamped to a no-op ("insufficient funds"). -/
def effective_action_of (fee : ℚ) (action : PositionType)
    (volume current_price : ℚ) (e : Env) : PositionType :=
  if action = PositionType.HOLD then action
  else if e.position.position_type = PositionType.HOLD ∨
          e.position.position_type = action then
    if (cost_volume_calculator e.balance fee volume current_price).1 ≤ 0 then
      PositionType.HOLD
    else action
  else action

/-- The `(episode_over, balance, effective_action)` triple returned by
the spec-modelled `step` (spec §4.1 Output). -/
structure StepResult where
  episode_over : Bool
  balance : ℚ
  effective_action : PositionType
deriving DecidableEq, Repr

/-- Modelled from the spec: `step(action, volume)` (§4.1), whose
validation, stop-loss evaluation and return triple are absent from the
`step` under `src/` (environment.py lines 77-109).  The raw action is
translated (`none` on an unknown raw action, where the source would
fail); a zero-volume non-HOLD request is rejected before any mutation
(§4.1 Validation, §5); otherwise the portfolio value is recomputed at
the current bar's open price, the stop loss is evaluated
(short-circuiting into forced liquidation and `episode_over = true`,
discarding the requested action and volume), and on the normal path the
transition function runs, the portfolio value is recomputed at the same
price, and the step index advances. -/
def step_spec (fee : ℚ) (data : ℕ → ℚ) (a : ℤ) (volume : ℚ)
    (e : Env) : Option (StepResult × Env) :=
  (action_mapping a).map fun action =>
    if volume = 0 ∧ action ≠ PositionType.HOLD then
      (⟨false, e.balance, PositionType.HOLD⟩, e)
    else
      let current_price := data e.current_step
      let e1 := { e with portfolio_value :=
                    update_portfolio_value e.position current_price }
      if stop_loss_triggered e1 then
        let e2 := stop_loss_liquidate fee current_price e1
        let e3 := { e2 with portfolio_value :=
                      update_portfolio_value e2.position current_price }
        (⟨true, e3.balance, PositionType.HOLD⟩, e3)
      else
        let eff := effective_action_of fee action volume current_price e1
        let e2 := dispatch_spec fee action volume current_price e1
        let pv3 := update_portfolio_value e2.position current_price
        let e3 := { e2 with portfolio_value := pv3, current_step := e2.current_step + 1 }
        (⟨false, e3.balance, eff⟩, e3)

/-- The result of a stop-loss step (the short-circuit branch of
`step_spec`), as a function of the account state and price alone — it
does not depend on the requested action or volume. -/
def stop_outcome (fee current_price : ℚ) (e : Env) : StepResult × Env :=
  let e1 := { e with portfolio_value :=
                update_portfolio_value e.position current_price }
  let e2 := stop_loss_liquidate fee current_price e1
  let e3 := { e2 with portfolio_value :=
                update_portfolio_value e2.position current_price }
  (⟨true, e3.balance, PositionType.HOLD⟩, e3)

/-- States reachable from `reset()` by `step` calls with raw actions in
`{-1, 0, 1}` and non-negative volumes (spec §8 Invariant). -/
inductive Reachable (fee initial_balance : ℚ) (data : ℕ → ℚ) : Env → Prop where
  | base : Reachable fee initial_balance data (reset initial_balance)
  | step (e : Env) (a : ℤ) (v : ℚ) (r : StepResult) (e' : Env) :
      Reachable fee initial_balance data e →
      (a = -1 ∨ a = 0 ∨ a = 1) → 0 ≤ v →
      step_spec fee data a v e = some (r, e') →
      Reachable fee initial_balance data e'

/-- The position invariant, in the strengthened form that the induction
needs: a `HOLD` ("no position") side owns volume 0, and an open side owns
strictly positive volume. -/
def Istrong (e : Env) : Prop :=
  (e.position.position_type = PositionType.HOLD → e.position.owned_volume = 0) ∧
  (e.position.position_type ≠ PositionType.HOLD → 0 < e.position.owned_volume)

/-! ## Theorems -/

theorem Istrong_reset (ib : ℚ) : Istrong (reset ib) :=
  ⟨fun _ => rfl, fun h => absurd rfl h⟩

theorem opposite_ne_hold (t : PositionType) (h : t ≠ PositionType.HOLD) :
    opposite t ≠ PositionType.HOLD := by
  cases t <;> simp [opposite] at h ⊢

theorem Istrong_open_spec (fee : ℚ) (action : PositionType) (v p : ℚ) (e : Env)
    (hI : Istrong e) (ha : action ≠ PositionType.HOLD) :
    Istrong (open_new_position_spec fee action v p e) := by
  rw [open_new_position_spec]
  split_ifs with h
  · exact hI
  · exact ⟨fun hh => absurd hh ha, fun _ => not_le.mp h⟩

theorem Istrong_buy_spec (fee : ℚ) (action : PositionType) (v p : ℚ) (e : Env)
    (hI : Istrong e) (hside : e.position.position_type ≠ PositionType.HOLD) :
    Istrong (buy_more_spec fee action v p e) := by
  rw [buy_more_spec]
  split_ifs with h
  · exact hI
  · exact ⟨fun hh => absurd hh hside,
           fun _ => add_pos (hI.2 hside) (not_le.mp h)⟩

theorem Istrong_sell_spec (fee : ℚ) (action : PositionType) (v p : ℚ) (e : Env)
    (hI : Istrong e) (hv : 0 ≤ v) (ha : action ≠ PositionType.HOLD) :
    Istrong (sell_spec fee action v p e) := by
  rw [sell_spec]
  split_ifs with h1 h2
  · have howned : 0 < e.position.owned_volume := lt_of_le_of_lt hv h1
    have hside : e.position.position_type ≠ PositionType.HOLD := by
      intro hh
      exact absurd (hI.1 hh) (ne_of_gt howned)
    exact ⟨fun hh => absurd hh hside, fun _ => sub_pos.mpr h1⟩
  · exact Istrong_open_spec fee action _ p _
      ⟨fun _ => rfl, fun hh => absurd rfl hh⟩ ha
  · exact ⟨fun _ => rfl, fun hh => absurd rfl hh⟩

theorem Istrong_liquidate (fee p : ℚ) (e : Env) (hI : Istrong e) :
    Istrong (stop_loss_liquidate fee p e) := by
  rw [stop_loss_liquidate]
  split_ifs with h
  · exact hI
  · exact Istrong_sell_spec fee _ _ p e hI (le_of_lt (hI.2 h))
      (opposite_ne_hold _ h)

theorem Istrong_dispatch (fee : ℚ) (t : PositionType) (v p : ℚ) (e : Env)
    (hI : Istrong e) (hv : 0 ≤ v) :
    Istrong (dispatch_spec fee t v p e) := by
  rw [dispatch_spec.eq_def]
  cases t <;> cases hs : e.position.position_type <;>
    dsimp only <;>
    first
      | exact hI
      | exact Istrong_open_spec fee _ v p e hI (by simp)
      | exact Istrong_buy_spec fee _ v p e hI (by rw [hs]; simp)
      | exact Istrong_sell_spec fee _ v p e hI hv (by simp)

/-- C7: For every partial sell (volume `v` strictly less than owned volume)
from a position with entry price `E` at current price `p`, with
`portfolio_value` freshly computed at `p`: the proceeds credited to
balance equal exactly `v*p` when the position is LONG and `v*(2E - p)`
when SHORT (the flat fee being the only other balance change), and after
the sell the position's volume is reduced by `v` while its side and
entry price are unchanged. -/
theorem claim_C7 (fee bal E p v V : ℚ) (k : ℕ) (side action : PositionType)
    (hside : side = PositionType.LONG ∨ side = PositionType.SHORT)
    (hv : 0 ≤ v) (hlt : v < V) :
    (side = PositionType.LONG →
      (sell fee action v p
          ⟨bal, ⟨side, V, E⟩, update_portfolio_value ⟨side, V, E⟩ p, k⟩).balance
        = bal + v * p - fee) ∧
    (side = PositionType.SHORT →
      (sell fee action v p
          ⟨bal, ⟨side, V, E⟩, update_portfolio_value ⟨side, V, E⟩ p, k⟩).balance
        = bal + v * (2 * E - p) - fee) ∧
    (sell fee action v p
        ⟨bal, ⟨side, V, E⟩, update_portfolio_value ⟨side, V, E⟩ p, k⟩).position
      = ⟨side, V - v, E⟩ := by
  have hV0 : V ≠ 0 := ne_of_gt (lt_of_le_of_lt hv hlt)
  refine ⟨fun hL => ?_, fun hS => ?_, ?_⟩
  · subst hL
    simp only [sell, update_portfolio_value, pay_transaction_fee]
    split_ifs with h1
    · field_simp
      ring
    · exact absurd hlt (by simpa using h1)
  · subst hS
    simp only [sell, update_portfolio_value, pay_transaction_fee]
    split_ifs with h1
    · field_simp
      ring
    · exact absurd hlt (by simpa using h1)
  · simp only [sell, update_portfolio_value, pay_transaction_fee]
    split_ifs with h1
    · rfl
    · exact absurd hlt (by simpa using h1)

/-- C9: `buy_more` of volume `v` at price `p` on an existing position of
volume `V > 0` with entry `E` yields volume `V + v`, entry price equal to
the volume-weighted average `(E*V + p*v)/(V + v)`, an unchanged side, and
a balance reduced by the cost `v*p` plus the fee. -/
theorem claim_C9 (fee bal E p v V pv : ℚ) (k : ℕ) (side action : PositionType)
    (hV : 0 < V) (hv : 0 ≤ v) :
    (buy_more fee action v p ⟨bal, ⟨side, V, E⟩, pv, k⟩).position
      = ⟨side, V + v, (E * V + p * v) / (V + v)⟩ ∧
    (buy_more fee action v p ⟨bal, ⟨side, V, E⟩, pv, k⟩).balance
      = bal - v * p - fee := by
  exact ⟨rfl, rfl⟩

/-- Witness for C7: selling 2 of a LONG 5 at entry 8 for price 10 credits
`2 * 10` and leaves `{LONG, 3, 8}`. -/
theorem claim_C7_witness :
    (PositionType.LONG = PositionType.LONG →
      (sell 1 PositionType.SHORT 2 10
          ⟨100, ⟨PositionType.LONG, 5, 8⟩,
            update_portfolio_value ⟨PositionType.LONG, 5, 8⟩ 10, 0⟩).balance
        = 100 + 2 * 10 - 1) ∧
    (PositionType.LONG = PositionType.SHORT →
      (sell 1 PositionType.SHORT 2 10
          ⟨100, ⟨PositionType.LONG, 5, 8⟩,
            update_portfolio_value ⟨PositionType.LONG, 5, 8⟩ 10, 0⟩).balance
        = 100 + 2 * (2 * 8 - 10) - 1) ∧
    (sell 1 PositionType.SHORT 2 10
        ⟨100, ⟨PositionType.LONG, 5, 8⟩,
          update_portfolio_value ⟨PositionType.LONG, 5, 8⟩ 10, 0⟩).position
      = ⟨PositionType.LONG, 5 - 2, 8⟩ :=
  claim_C7 1 100 8 10 2 5 0 PositionType.LONG PositionType.SHORT
    (Or.inl rfl) (by norm_num) (by norm_num)

/-- Witness for C9: adding 2 at price 10 to a LONG 5 at entry 8. -/
theorem claim_C9_witness :
    (buy_more 1 PositionType.LONG 2 10
        ⟨100, ⟨PositionType.LONG, 5, 8⟩, 77, 0⟩).position
      = ⟨PositionType.LONG, 5 + 2, (8 * 5 + 10 * 2) / (5 + 2)⟩ ∧
    (buy_more 1 PositionType.LONG 2 10
        ⟨100, ⟨PositionType.LONG, 5, 8⟩, 77, 0⟩).balance
      = 100 - 2 * 10 - 1 :=
  claim_C9 1 100 8 10 2 5 77 0 PositionType.LONG PositionType.LONG
    (by norm_num) (by norm_num)

/-- C6 counterexample: the claim "the fee is subtracted exactly once per
`sell` invocation, including the over-fill case" is false on the source.
From balance 100, a LONG 2 at entry 10 marked at 20, selling 5 at price
10 credits 20, opens the reverse SHORT 3 at cost 30, and lands at balance
88: the fee was paid twice (once inside the nested `open_new_position`,
once by `sell`); a single fee would have given 89. -/
theorem claim_C6_counterexample :
    (sell 1 PositionType.SHORT 5 10
        ⟨100, ⟨PositionType.LONG, 2, 10⟩, 20, 0⟩).balance = 88 ∧
    (100 : ℚ) + 20 - 3 * 10 - 1 = 89 ∧ (88 : ℚ) ≠ 89 := by
  refine ⟨?_, by norm_num, by norm_num⟩
  norm_num [sell, open_new_position, pay_transaction_fee]

/-- C6 amended: the fee is subtracted from the balance exactly once per
`sell` invocation when no secondary `open_new_position` is triggered
(partial close, or full close with `volume = owned`); when `volume >
owned` the over-fill triggers the secondary `open_new_position` and the
fee is subtracted exactly twice — once by the nested call and once by
`sell` itself. -/
theorem claim_C6 (fee v p : ℚ) (action : PositionType) (e : Env) :
    (e.position.owned_volume > v →
      (sell fee action v p e).balance
        = e.balance + (e.position.purchase_price +
            (e.portfolio_value -
              e.position.purchase_price * e.position.owned_volume)
              / e.position.owned_volume) * v - fee) ∧
    (v = e.position.owned_volume →
      (sell fee action v p e).balance = e.balance + e.portfolio_value - fee) ∧
    (e.position.owned_volume < v →
      (sell fee action v p e).balance
        = e.balance + e.portfolio_value
            - (v - e.position.owned_volume) * p - 2 * fee) := by
  refine ⟨fun h1 => ?_, fun h2 => ?_, fun h3 => ?_⟩
  · simp only [sell, pay_transaction_fee]
    rw [if_pos h1]
  · simp only [sell, pay_transaction_fee]
    rw [if_neg (by simpa using le_of_eq h2.symm), if_neg (by simp [h2])]
  · simp only [sell, open_new_position, pay_transaction_fee]
    rw [if_neg (by simpa using le_of_lt h3), if_pos (by simpa using h3)]
    ring

/-- Witness for C6 (amended), over-fill case: selling 5 from a LONG 2
marked at 20, price 10, fee 1 → balance `100 + 20 - 3*10 - 2`. -/
theorem claim_C6_witness :
    (sell 1 PositionType.SHORT 5 10
        ⟨100, ⟨PositionType.LONG, 2, 10⟩, 20, 0⟩).balance
      = 100 + 20 - (5 - 2) * 10 - 2 * 1 :=
  (claim_C6 1 5 10 PositionType.SHORT
      ⟨100, ⟨PositionType.LONG, 2, 10⟩, 20, 0⟩).2.2 (by norm_num)

/-- C10: in `sell`, if the requested volume is non-negative and the
partial-close branch is taken (`owned_volume > volume`), the divisor
`owned_volume` of the per-share profit computation is strictly positive;
accordingly the division-checked embedding `sell_checked` never reports a
division error on non-negative volumes. -/
theorem claim_C10 (fee v p : ℚ) (action : PositionType) (e : Env)
    (hv : 0 ≤ v) :
    (e.position.owned_volume > v → 0 < e.position.owned_volume) ∧
    sell_checked fee action v p e = some (sell fee action v p e) := by
  refine ⟨fun h => lt_of_le_of_lt hv h, ?_⟩
  rw [sell_checked, if_neg]
  rintro ⟨h1, h2⟩
  exact absurd (h2 ▸ h1) (not_lt.mpr hv)

/-- Witness for C10 at `fee = 1`, `volume = 2`, `price = 10`, a LONG
position of 5 at entry 8 (partial branch taken). -/
theorem claim_C10_witness :
    ((⟨100, ⟨PositionType.LONG, 5, 8⟩, 50, 0⟩ : Env).position.owned_volume > 2 →
        0 < (⟨100, ⟨PositionType.LONG, 5, 8⟩, 50, 0⟩ : Env).position.owned_volume) ∧
    sell_checked 1 PositionType.SHORT 2 10 ⟨100, ⟨PositionType.LONG, 5, 8⟩, 50, 0⟩
      = some (sell 1 PositionType.SHORT 2 10 ⟨100, ⟨PositionType.LONG, 5, 8⟩, 50, 0⟩) :=
  claim_C10 1 2 10 PositionType.SHORT ⟨100, ⟨PositionType.LONG, 5, 8⟩, 50, 0⟩ (by norm_num)

/-- C2: for every buy with requested volume `v` at price `p`: if
`balance ≥ v*p + fee` the full volume is accepted at cost `v*p`,
otherwise the volume is clamped to `⌊(balance - fee)/p⌋` at cost
`clamped*p`; `open_new_position` and `buy_more` buy exactly the accepted
volume at the accepted cost (whenever it is positive); and in particular,
from balance 30 with fee 1, a LONG of volume 10 at price 5 results in a
position of volume 5 at entry 5 and balance 4 (Scenario D). -/
theorem claim_C2 (b fee v p : ℚ) (e : Env) (action : PositionType) :
    (b ≥ v * p + fee → cost_volume_calculator b fee v p = (v, v * p)) ∧
    (¬b ≥ v * p + fee →
      cost_volume_calculator b fee v p
        = ((⌊(b - fee) / p⌋ : ℚ), (⌊(b - fee) / p⌋ : ℚ) * p)) ∧
    (0 < (cost_volume_calculator e.balance fee v p).1 →
      open_new_position_spec fee action v p e
        = pay_transaction_fee fee
            { e with
                balance := e.balance - (cost_volume_calculator e.balance fee v p).2,
                position := ⟨action, (cost_volume_calculator e.balance fee v p).1, p⟩ }) ∧
    (0 < (cost_volume_calculator e.balance fee v p).1 →
      buy_more_spec fee action v p e
        = pay_transaction_fee fee
            { e with
                balance := e.balance - (cost_volume_calculator e.balance fee v p).2,
                position :=
                  ⟨e.position.position_type,
                   e.position.owned_volume + (cost_volume_calculator e.balance fee v p).1,
                   (e.position.purchase_price * e.position.owned_volume
                      + p * (cost_volume_calculator e.balance fee v p).1)
                     / (e.position.owned_volume
                          + (cost_volume_calculator e.balance fee v p).1)⟩ }) ∧
    (open_new_position_spec 1 PositionType.LONG 10 5 (reset 30)).position
      = ⟨PositionType.LONG, 5, 5⟩ ∧
    (open_new_position_spec 1 PositionType.LONG 10 5 (reset 30)).balance = 4 := by
  have hfloor : ⌊(((30 : ℚ)) - 1) / 5⌋ = (5 : ℤ) := by
    rw [Int.floor_eq_iff]
    norm_num
  have hcvc : cost_volume_calculator (reset 30).balance 1 10 5 = (5, 25) := by
    rw [cost_volume_calculator, if_neg (by norm_num [reset])]
    norm_num [reset, hfloor]
  have hD : open_new_position_spec 1 PositionType.LONG 10 5 (reset 30)
      = ⟨4, ⟨PositionType.LONG, 5, 5⟩, 0, 0⟩ := by
    rw [open_new_position_spec, hcvc]
    norm_num [reset, pay_transaction_fee]
  refine ⟨fun h => ?_, fun h => ?_, fun h => ?_, fun h => ?_, ?_, ?_⟩
  · rw [cost_volume_calculator, if_pos h]
  · rw [cost_volume_calculator, if_neg h]
  · rw [open_new_position_spec, if_neg (not_le.mpr h)]
  · rw [buy_more_spec, if_neg (not_le.mpr h)]
  · rw [hD]
  · rw [hD]

/-- Witness for C2 at Scenario D's numbers: balance 30, fee 1, volume 10,
price 5 (the unaffordable branch). -/
theorem claim_C2_witness :
    cost_volume_calculator 30 1 10 5
      = ((⌊((30 : ℚ) - 1) / 5⌋ : ℚ), (⌊((30 : ℚ) - 1) / 5⌋ : ℚ) * 5) ∧
    (open_new_position_spec 1 PositionType.LONG 10 5 (reset 30)).position
      = ⟨PositionType.LONG, 5, 5⟩ ∧
    (open_new_position_spec 1 PositionType.LONG 10 5 (reset 30)).balance = 4 :=
  ⟨(claim_C2 30 1 10 5 (reset 30) PositionType.LONG).2.1 (by norm_num),
   (claim_C2 30 1 10 5 (reset 30) PositionType.LONG).2.2.2.2.1,
   (claim_C2 30 1 10 5 (reset 30) PositionType.LONG).2.2.2.2.2⟩

/-- C3: a `step` with volume 0 and a translated action that is not HOLD
is rejected: the account state is returned unchanged (no balance,
position or fee mutation), the effective action is HOLD, and the episode
is reported as not over. -/
theorem claim_C3 (fee : ℚ) (data : ℕ → ℚ) (a : ℤ) (e : Env)
    (t : PositionType) (ht : action_mapping a = some t)
    (hne : t ≠ PositionType.HOLD) :
    step_spec fee data a 0 e
      = some (⟨false, e.balance, PositionType.HOLD⟩, e) := by
  rw [step_spec, ht, Option.map_some', if_pos ⟨rfl, hne⟩]

/-- Witness for C3: a LONG request (raw action 1) with volume 0 from the
freshly reset account with balance 1000 is a reported no-op. -/
theorem claim_C3_witness :
    step_spec 1 (fun _ => 10) 1 0 (reset 1000)
      = some (⟨false, (reset 1000).balance, PositionType.HOLD⟩, reset 1000) :=
  claim_C3 1 (fun _ => 10) 1 (reset 1000) PositionType.LONG rfl (by decide)

theorem Istrong_step (fee : ℚ) (data : ℕ → ℚ) (a : ℤ) (v : ℚ) (e : Env)
    (hI : Istrong e) (hv : 0 ≤ v) (q : StepResult × Env)
    (h : step_spec fee data a v e = some q) : Istrong q.2 := by
  rw [step_spec] at h
  cases hm : action_mapping a with
  | none => rw [hm] at h; simp at h
  | some t =>
    rw [hm, Option.map_some', Option.some.injEq] at h
    subst h
    dsimp only
    split_ifs with h1 h2
    · exact hI
    · exact Istrong_liquidate fee (data e.current_step) _ hI
    · exact Istrong_dispatch fee t v (data e.current_step) _ hI hv

theorem reachable_Istrong (fee ib : ℚ) (data : ℕ → ℚ) (e : Env)
    (h : Reachable fee ib data e) : Istrong e := by
  induction h with
  | base => exact Istrong_reset ib
  | step e a v r e' _hre ha hv hs ih =>
      exact Istrong_step fee data a v e ih hv (r, e') hs

/-- C5: in every state reachable from `reset()` by `step` calls with raw
actions in `{-1, 0, 1}` and non-negative volumes, the position side is
`HOLD` (no open position) exactly when the owned volume is 0. -/
theorem claim_C5 (fee ib : ℚ) (data : ℕ → ℚ) (e : Env)
    (h : Reachable fee ib data e) :
    e.position.position_type = PositionType.HOLD ↔
      e.position.owned_volume = 0 := by
  have hI := reachable_Istrong fee ib data e h
  refine ⟨hI.1, fun h0 => ?_⟩
  by_contra hne
  exact absurd h0 (ne_of_gt (hI.2 hne))

/-- Witness for C5 at the freshly reset account (reachable by zero
steps). -/
theorem claim_C5_witness :
    (reset 1000).position.position_type = PositionType.HOLD ↔
      (reset 1000).position.owned_volume = 0 :=
  claim_C5 1 1000 (fun _ => 10) (reset 1000) Reachable.base

/-- C4: every successful `step` call returns a triple `(episode_over,
balance, effective_action)` whose balance component equals the resulting
account balance; and the effective action may differ from the requested
one when the step is coerced to HOLD — concretely, a LONG request (raw
action 1) with volume 0 is answered with `effective_action = HOLD`. -/
theorem claim_C4 :
    (∀ (fee : ℚ) (data : ℕ → ℚ) (a : ℤ) (v : ℚ) (e : Env)
        (r : StepResult) (e' : Env),
      step_spec fee data a v e = some (r, e') → r.balance = e'.balance) ∧
    step_spec 1 (fun _ => 10) 1 0 (reset 1000)
      = some (⟨false, (reset 1000).balance, PositionType.HOLD⟩, reset 1000) ∧
    action_mapping 1 = some PositionType.LONG ∧
    PositionType.HOLD ≠ PositionType.LONG := by
  refine ⟨?_, ?_, rfl, by decide⟩
  · intro fee data a v e r e' h
    rw [step_spec] at h
    cases hm : action_mapping a with
    | none => rw [hm] at h; simp at h
    | some t =>
      rw [hm, Option.map_some', Option.some.injEq] at h
      have hr := congrArg Prod.fst h
      have he := congrArg Prod.snd h
      dsimp only at hr he
      rw [← hr, ← he]
      split_ifs <;> rfl
  · rw [step_spec]
    rfl

/-- Witness for C4: its universally quantified balance component at the
no-op step of the second conjunct. -/
theorem claim_C4_witness :
    (⟨false, (reset 1000).balance, PositionType.HOLD⟩ : StepResult).balance
      = (reset 1000).balance :=
  claim_C4.1 1 (fun _ => 10) 1 0 (reset 1000)
    ⟨false, (reset 1000).balance, PositionType.HOLD⟩ (reset 1000) claim_C4.2.1

/-- C1 counterexample: the claim as stated fails at volume 0.  In the
state with balance -5 and an open LONG 2 at entry 3 (stop-loss condition
`balance ≤ 0` holds at step entry), a `step` requesting LONG (raw action
1) with volume 0 is rejected by the zero-volume validation, which runs
before the stop-loss evaluation: the episode is reported as *not* over
and the position is not liquidated. -/
theorem claim_C1_counterexample :
    (⟨-5, ⟨PositionType.LONG, 2, 3⟩, 0, 7⟩ : Env).balance ≤ 0 ∧
    step_spec 1 (fun _ => 10) 1 0 ⟨-5, ⟨PositionType.LONG, 2, 3⟩, 0, 7⟩
      = some (⟨false, -5, PositionType.HOLD⟩,
              ⟨-5, ⟨PositionType.LONG, 2, 3⟩, 0, 7⟩) := by
  constructor
  · norm_num
  · rw [step_spec]
    rfl

/-- C1 (amended): for every account state and every `step` call that is
not rejected by the zero-volume validation (volume ≠ 0 or the translated
action is HOLD), the stop-loss condition is evaluated before the
requested action is applied: whenever `portfolio_value + balance ≤ 0`
(with the portfolio value marked at the current price) or `balance ≤ 0`
holds at step entry, the step's result is `stop_outcome` — any open
position is forcibly fully sold at the current price, the episode is
reported as over, and the caller's requested action and volume are
discarded (the result does not depend on them). -/
theorem claim_C1 (fee : ℚ) (data : ℕ → ℚ) (a : ℤ) (v : ℚ) (e : Env)
    (t : PositionType) (ht : action_mapping a = some t)
    (hrej : ¬(v = 0 ∧ t ≠ PositionType.HOLD))
    (hsl : update_portfolio_value e.position (data e.current_step) + e.balance ≤ 0
             ∨ e.balance ≤ 0) :
    step_spec fee data a v e
      = some (stop_outcome fee (data e.current_step) e) ∧
    (stop_outcome fee (data e.current_step) e).1.episode_over = true ∧
    (e.position.position_type ≠ PositionType.HOLD →
      (stop_outcome fee (data e.current_step) e).2.position
        = ⟨PositionType.HOLD, 0, 0⟩) := by
  have htrig : stop_loss_triggered
      { e with portfolio_value :=
          update_portfolio_value e.position (data e.current_step) } = true := by
    simp only [stop_loss_triggered, Bool.or_eq_true, decide_eq_true_eq]
    exact hsl
  refine ⟨?_, rfl, fun hside => ?_⟩
  · rw [step_spec, ht, Option.map_some', if_neg hrej]
    dsimp only
    rw [if_pos htrig]
    rfl
  · dsimp only [stop_outcome]
    rw [stop_loss_liquidate, if_neg hside, sell_spec]
    rw [if_neg (lt_irrefl _)]
    dsimp only
    rw [if_neg (by simp)]
    rfl

/-- Witness for C1 (amended) in the state with balance -5 and a LONG 2
at entry 3, requesting LONG volume 3 at price 10. -/
theorem claim_C1_witness :
    step_spec 1 (fun _ => 10) 1 3 ⟨-5, ⟨PositionType.LONG, 2, 3⟩, 0, 7⟩
      = some (stop_outcome 1 10 ⟨-5, ⟨PositionType.LONG, 2, 3⟩, 0, 7⟩) ∧
    (stop_outcome 1 10
        (⟨-5, ⟨PositionType.LONG, 2, 3⟩, 0, 7⟩ : Env)).1.episode_over = true ∧
    ((⟨-5, ⟨PositionType.LONG, 2, 3⟩, 0, 7⟩ : Env).position.position_type
        ≠ PositionType.HOLD →
      (stop_outcome 1 10
          (⟨-5, ⟨PositionType.LONG, 2, 3⟩, 0, 7⟩ : Env)).2.position
        = ⟨PositionType.HOLD, 0, 0⟩) :=
  claim_C1 1 (fun _ => 10) 1 3 ⟨-5, ⟨PositionType.LONG, 2, 3⟩, 0, 7⟩
    PositionType.LONG rfl (by norm_num) (Or.inr (by norm_num))

/-- C8: a `sell` of volume `v ≥ owned` with the portfolio value freshly
marked at price `p` credits exactly that pre-sale portfolio value to the
balance and resets the position to `{HOLD, 0, 0}`; when `v = owned` no
reverse position is opened (the whole effect is the credit, the reset and
the fee), and when `v > owned` the excess `v - owned` immediately opens a
position on the opposite side at the same price via `open_new_position`. -/
theorem claim_C8 (fee bal E p v V : ℚ) (k : ℕ) (side : PositionType)
    (hside : side = PositionType.LONG ∨ side = PositionType.SHORT)
    (hle : V ≤ v) :
    (v = V →
      sell fee (opposite side) v p
          ⟨bal, ⟨side, V, E⟩, update_portfolio_value ⟨side, V, E⟩ p, k⟩
        = pay_transaction_fee fee
            ⟨bal + update_portfolio_value ⟨side, V, E⟩ p,
             ⟨PositionType.HOLD, 0, 0⟩,
             update_portfolio_value ⟨side, V, E⟩ p, k⟩) ∧
    (V < v →
      sell fee (opposite side) v p
          ⟨bal, ⟨side, V, E⟩, update_portfolio_value ⟨side, V, E⟩ p, k⟩
        = pay_transaction_fee fee
            (open_new_position fee (opposite side) (v - V) p
              ⟨bal + update_portfolio_value ⟨side, V, E⟩ p,
               ⟨PositionType.HOLD, 0, 0⟩,
               update_portfolio_value ⟨side, V, E⟩ p, k⟩) ∧
      (sell fee (opposite side) v p
          ⟨bal, ⟨side, V, E⟩, update_portfolio_value ⟨side, V, E⟩ p, k⟩).position
        = ⟨opposite side, v - V, p⟩) := by
  refine ⟨fun hv => ?_, fun hv => ?_⟩
  · subst hv
    rw [sell, if_neg (lt_irrefl _)]
    dsimp only
    rw [if_neg (by simp)]
  · rw [sell, if_neg (not_lt.mpr hle)]
    dsimp only
    rw [if_pos (sub_pos.mpr hv)]
    exact ⟨rfl, rfl⟩

/-- Witness for C8 at Scenario C's numbers: full close of a LONG 5 at
entry 10 when the price is 20 (portfolio value 100), fee 1, balance
949. -/
theorem claim_C8_witness :
    ((5 : ℚ) = 5 →
      sell 1 (opposite PositionType.LONG) 5 20
          ⟨949, ⟨PositionType.LONG, 5, 10⟩,
            update_portfolio_value ⟨PositionType.LONG, 5, 10⟩ 20, 1⟩
        = pay_transaction_fee 1
            ⟨949 + update_portfolio_value ⟨PositionType.LONG, 5, 10⟩ 20,
             ⟨PositionType.HOLD, 0, 0⟩,
             update_portfolio_value ⟨PositionType.LONG, 5, 10⟩ 20, 1⟩) ∧
    ((5 : ℚ) < 5 →
      sell 1 (opposite PositionType.LONG) 5 20
          ⟨949, ⟨PositionType.LONG, 5, 10⟩,
            update_portfolio_value ⟨PositionType.LONG, 5, 10⟩ 20, 1⟩
        = pay_transaction_fee 1
            (open_new_position 1 (opposite PositionType.LONG) (5 - 5) 20
              ⟨949 + update_portfolio_value ⟨PositionType.LONG, 5, 10⟩ 20,
               ⟨PositionType.HOLD, 0, 0⟩,
               update_portfolio_value ⟨PositionType.LONG, 5, 10⟩ 20, 1⟩) ∧
      (sell 1 (opposite PositionType.LONG) 5 20
          ⟨949, ⟨PositionType.LONG, 5, 10⟩,
            update_portfolio_value ⟨PositionType.LONG, 5, 10⟩ 20, 1⟩).position
        = ⟨opposite PositionType.LONG, 5 - 5, 20⟩) :=
  claim_C8 1 949 10 20 5 5 1 PositionType.LONG (Or.inl rfl) (le_refl 5)

end StockMarketRL
